import Mathlib

/-!
Verification of the MongoDB-backed to-do API in
`src/backend/src/mysite/main.py` (FastAPI + motor).

The storage layer is modelled as a list of documents (`List Doc`), newest
appended at the end, mirroring a Mongo collection with the driver calls
`insert_one`, `find_one`, `update_one`, `delete_one`, `delete_many`,
`count_documents` and `find().sort("created_at", -1)` embedded as pure
functions.  Each HTTP handler returns the new collection state, the list of
storage calls it performed, and either a response or the `HTTPException` it
raised.  Timestamps (`datetime.utcnow()`) are modelled as a `now : Nat`
parameter; the MongoDB `ObjectId` generated for an insert is a `newId`
parameter, with `ObjectId.is_valid` embedded for strings (24 hex chars).
-/

namespace TodoApp

/-- A JSON scalar as it can appear in a request body field. -/
inductive Json where
  | str (s : String)
  | bool (b : Bool)
  | num (n : Int)
  | null
deriving Repr, DecidableEq

/-- A stored Mongo document for a task.  `completed`, `created_at` and
`updated_at` are optional at the document level (the mapper `task_helper`
uses `.get` with defaults), though every document the API inserts sets them. -/
structure Doc where
  _id : String
  text : String
  completed : Option Bool
  created_at : Option Nat
  updated_at : Option Nat
deriving Repr, DecidableEq

/-- Pydantic model `TaskCreate`: `text: str`, `completed: bool = False`. -/
structure TaskCreate where
  text : String
  completed : Bool := false
deriving Repr, DecidableEq

/-- Pydantic model `TaskUpdate`: `text: Optional[str] = None`,
`completed: Optional[bool] = None`. -/
structure TaskUpdate where
  text : Option String := none
  completed : Option Bool := none
deriving Repr, DecidableEq

/-- Wire response model `TaskResponse`. -/
structure TaskResponse where
  id : String
  text : String
  completed : Bool
  created_at : Option Nat
  updated_at : Option Nat
deriving Repr, DecidableEq

/-- Response body of `DELETE /tasks/{task_id}`. -/
structure DeleteResp where
  message : String
  id : String
deriving Repr, DecidableEq

/-- Response body of `DELETE /tasks`. -/
structure DeleteAllResp where
  message : String
  deleted_count : Nat
  previous_count : Nat
deriving Repr, DecidableEq

/-- A Python exception as the handlers distinguish them: an
`HTTPException` carrying a status code and detail, or any other exception
(driver/network fault) carrying its message. -/
inductive PyExc where
  | http (statusCode : Nat) (detail : String)
  | other (msg : String)
deriving Repr, DecidableEq

/-- Python `str(e)`: Starlette renders an `HTTPException` as
`"{status_code}: {detail}"`; other exceptions render their message. -/
def excStr : PyExc → String
  | .http s d => toString s ++ ": " ++ d
  | .other m => m

/-- One call made against the `todos` collection. -/
inductive StorageCall where
  | insertOneCall (id : String)
  | findOneCall (id : String)
  | updateOneCall (id : String)
  | deleteOneCall (id : String)
  | deleteManyCall
  | countCall
  | findCall
deriving Repr, DecidableEq

/-- A hexadecimal digit as `bson` accepts it (`bytes.fromhex`). -/
def isHexChar (c : Char) : Bool :=
  c.isDigit || (97 ≤ c.toNat && c.toNat ≤ 102) || (65 ≤ c.toNat && c.toNat ≤ 70)

/-- `bson.ObjectId.is_valid` on a string: exactly 24 hexadecimal characters. -/
def isValidObjectId (s : String) : Bool :=
  s.length == 24 && s.toList.all isHexChar

/-- The mapper `task_helper`: stringified `_id` becomes `id`, `completed`
defaults to `False` when absent, timestamps pass through. -/
def task_helper (t : Doc) : TaskResponse :=
  { id := t._id
    text := t.text
    completed := t.completed.getD false
    created_at := t.created_at
    updated_at := t.updated_at }

/-- Driver `find_one({"_id": oid})`: first document with the given id. -/
def find_one (db : List Doc) (id : String) : Option Doc :=
  match db with
  | [] => none
  | d :: rest => if d._id == id then some d else find_one rest id

/-- Driver `delete_one({"_id": oid})`: remove the first matching document,
returning the new collection and `deleted_count`. -/
def delete_one (db : List Doc) (id : String) : List Doc × Nat :=
  match db with
  | [] => ([], 0)
  | d :: rest =>
    if d._id == id then (rest, 1)
    else
      let r := delete_one rest id
      (d :: r.1, r.2)

/-- Driver `update_one({"_id": oid}, {"$set": ...})`: apply `f` to the first
matching document, returning the new collection and `matched_count`. -/
def update_one (db : List Doc) (id : String) (f : Doc → Doc) : List Doc × Nat :=
  match db with
  | [] => ([], 0)
  | d :: rest =>
    if d._id == id then (f d :: rest, 1)
    else
      let r := update_one rest id f
      (d :: r.1, r.2)

/-- `find().sort("created_at", -1)`: documents ordered newest-created first. -/
def sortByCreatedDesc (db : List Doc) : List Doc :=
  List.insertionSort (fun a b => (b.created_at.getD 0) ≤ (a.created_at.getD 0)) db

/-- The `$set` document built by `update_task`: always `updated_at`, plus
`text` when the payload's `text` is not `None`, plus `completed` when the
payload's `completed` is not `None`. -/
def applyUpdate (task_data : TaskUpdate) (now : Nat) (d : Doc) : Doc :=
  { d with
    updated_at := some now
    text := match task_data.text with | some t => t | none => d.text
    completed := match task_data.completed with | some b => some b | none => d.completed }

/-- Result of one handler: new collection state, storage calls performed,
and either the response or the exception escaping the `try` body. -/
abbrev OpResult (α : Type) := List Doc × List StorageCall × Except PyExc α

/-- The outer `except Exception as e: raise HTTPException(500, prefix + str(e))`
handler used by `create_task`, `get_all_tasks` and `delete_all_tasks`: every
escaping exception, `HTTPException` included, is replaced by a fresh 500. -/
def wrap500 (pre : String) : Except PyExc α → Except PyExc α
  | .ok a => .ok a
  | .error e => .error (.http 500 (pre ++ excStr e))

/-- The `except HTTPException: raise / except Exception as e: raise
HTTPException(500, ...)` pair used by `delete_task` and `update_task`:
an `HTTPException` is re-raised unchanged, anything else becomes a 500. -/
def reraiseHttp (pre : String) : Except PyExc α → Except PyExc α
  | .ok a => .ok a
  | .error (.http s d) => .error (.http s d)
  | .error (.other m) => .error (.http 500 (pre ++ m))

/-- Body of `GET /tasks`: list all documents newest-created first, mapped
through `task_helper`. -/
def get_all_tasks_body (db : List Doc) : OpResult (List TaskResponse) :=
  (db, [.findCall], .ok ((sortByCreatedDesc db).map task_helper))

/-- `GET /tasks` with its outer generic handler. -/
def get_all_tasks (db : List Doc) : OpResult (List TaskResponse) :=
  let r := get_all_tasks_body db
  (r.1, r.2.1, wrap500 "Error fetching tasks: " r.2.2)

/-- Body of `POST /tasks`: build the document with both timestamps set to
now, `insert_one` it (Mongo's unique `_id` index rejects a duplicate id with
a driver error), then `find_one` it back; a failed read-back raises a 500. -/
def create_task_body (task_data : TaskCreate) (newId : String) (now : Nat)
    (db : List Doc) : OpResult TaskResponse :=
  if db.any (fun d => d._id == newId) then
    (db, [.insertOneCall newId], .error (.other "E11000 duplicate key error"))
  else
    let task_doc : Doc :=
      { _id := newId, text := task_data.text, completed := some task_data.completed
        created_at := some now, updated_at := some now }
    let db1 := db ++ [task_doc]
    match find_one db1 newId with
    | some inserted =>
      (db1, [.insertOneCall newId, .findOneCall newId], .ok (task_helper inserted))
    | none =>
      (db1, [.insertOneCall newId, .findOneCall newId],
        .error (.http 500 "Failed to create task"))

/-- `POST /tasks` with its outer generic handler (no `except HTTPException`
clause: every escaping exception is wrapped into a fresh 500). -/
def create_task (task_data : TaskCreate) (newId : String) (now : Nat)
    (db : List Doc) : OpResult TaskResponse :=
  let r := create_task_body task_data newId now db
  (r.1, r.2.1, wrap500 "Error creating task: " r.2.2)

/-- Body of `DELETE /tasks/{task_id}`: reject a malformed id with 400 before
any storage call, then `delete_one`; `deleted_count == 0` raises 404. -/
def delete_task_body (task_id : String) (db : List Doc) : OpResult DeleteResp :=
  if !(isValidObjectId task_id) then
    (db, [], .error (.http 400 "Invalid task ID format"))
  else
    let r := delete_one db task_id
    if r.2 == 0 then
      (r.1, [.deleteOneCall task_id], .error (.http 404 "Task not found"))
    else
      (r.1, [.deleteOneCall task_id], .ok ⟨"Task deleted successfully", task_id⟩)

/-- `DELETE /tasks/{task_id}` with its handlers (`except HTTPException:
raise`, then the generic 500 wrapper). -/
def delete_task (task_id : String) (db : List Doc) : OpResult DeleteResp :=
  let r := delete_task_body task_id db
  (r.1, r.2.1, reraiseHttp "Error deleting task: " r.2.2)

/-- Body of `DELETE /tasks`: `count_documents({})`, then `delete_many({})`,
answering with both the deleted count and the count before deletion. -/
def delete_all_tasks_body (db : List Doc) : OpResult DeleteAllResp :=
  let count := db.length
  ([], [.countCall, .deleteManyCall],
    .ok ⟨"All tasks deleted successfully", db.length, count⟩)

/-- `DELETE /tasks` with its outer generic handler. -/
def delete_all_tasks (db : List Doc) : OpResult DeleteAllResp :=
  let r := delete_all_tasks_body db
  (r.1, r.2.1, wrap500 "Error deleting all tasks: " r.2.2)

/-- Body of `PUT /tasks/{task_id}`: reject a malformed id with 400 before any
storage call; `update_one` with the `$set` document of `applyUpdate`;
`matched_count == 0` raises 404; then `find_one` the updated document back. -/
def update_task_body (task_id : String) (task_data : TaskUpdate) (now : Nat)
    (db : List Doc) : OpResult TaskResponse :=
  if !(isValidObjectId task_id) then
    (db, [], .error (.http 400 "Invalid task ID format"))
  else
    let r := update_one db task_id (applyUpdate task_data now)
    if r.2 == 0 then
      (r.1, [.updateOneCall task_id], .error (.http 404 "Task not found"))
    else
      match find_one r.1 task_id with
      | some updated =>
        (r.1, [.updateOneCall task_id, .findOneCall task_id], .ok (task_helper updated))
      | none =>
        (r.1, [.updateOneCall task_id, .findOneCall task_id],
          .error (.http 500 "Failed to retrieve updated task"))

/-- `PUT /tasks/{task_id}` with its handlers (`except HTTPException: raise`,
then the generic 500 wrapper). -/
def update_task (task_id : String) (task_data : TaskUpdate) (now : Nat)
    (db : List Doc) : OpResult TaskResponse :=
  let r := update_task_body task_id task_data now db
  (r.1, r.2.1, reraiseHttp "Error updating task: " r.2.2)

/-- A raw create request body: each declared field of `TaskCreate` is either
absent or some JSON value. -/
structure RawCreateBody where
  text : Option Json := none
  completed : Option Json := none
deriving Repr, DecidableEq

/-- Pydantic validation of a body against `TaskCreate`: `text` is a required
string, `completed` an optional boolean defaulting to `False`. -/
def parseTaskCreate (body : RawCreateBody) : Except String TaskCreate :=
  match body.text with
  | some (.str t) =>
    match body.completed with
    | none => .ok { text := t }
    | some (.bool b) => .ok { text := t, completed := b }
    | some _ => .error "Input should be a valid boolean"
  | some _ => .error "Input should be a valid string"
  | none => .error "Field required"

/-- Framework layer of `POST /tasks`: FastAPI validates the body against the
route's declared `TaskCreate` model before `create_task` runs, and answers a
validation failure with status 422 (`RequestValidationError` default
handling); the route's own code never sees such a request. -/
def create_task_endpoint (body : RawCreateBody) (newId : String) (now : Nat)
    (db : List Doc) : OpResult TaskResponse :=
  match parseTaskCreate body with
  | .error d => (db, [], .error (.http 422 d))
  | .ok task_data => create_task task_data newId now db

/-- A raw update request body: each declared field of `TaskUpdate` is either
absent or some JSON value. -/
structure RawUpdateBody where
  text : Option Json := none
  completed : Option Json := none
deriving Repr, DecidableEq

/-- Pydantic validation of `Optional[str] = None`: an absent field and an
explicit JSON `null` both become `None`. -/
def parseOptStr : Option Json → Except String (Option String)
  | none => .ok none
  | some .null => .ok none
  | some (.str s) => .ok (some s)
  | some _ => .error "Input should be a valid string"

/-- Pydantic validation of `Optional[bool] = None`: an absent field and an
explicit JSON `null` both become `None`. -/
def parseOptBool : Option Json → Except String (Option Bool)
  | none => .ok none
  | some .null => .ok none
  | some (.bool b) => .ok (some b)
  | some _ => .error "Input should be a valid boolean"

/-- Pydantic validation of a body against `TaskUpdate`. -/
def parseTaskUpdate (body : RawUpdateBody) : Except String TaskUpdate :=
  match parseOptStr body.text with
  | .error e => .error e
  | .ok t =>
    match parseOptBool body.completed with
    | .error e => .error e
    | .ok c => .ok { text := t, completed := c }

/-- The ids of all documents in the collection, in order. -/
def idsOf (db : List Doc) : List String :=
  db.map (fun d => d._id)

/-- One request against the API, as a relation between collection states. -/
inductive Step : List Doc → List Doc → Prop where
  | createS (task_data : TaskCreate) (newId : String) (now : Nat) (db : List Doc) :
      Step db (create_task task_data newId now db).1
  | deleteS (task_id : String) (db : List Doc) :
      Step db (delete_task task_id db).1
  | deleteAllS (db : List Doc) :
      Step db (delete_all_tasks db).1
  | updateS (task_id : String) (task_data : TaskUpdate) (now : Nat) (db : List Doc) :
      Step db (update_task task_id task_data now db).1
  | getAllS (db : List Doc) :
      Step db (get_all_tasks db).1

/-- Collection states reachable from the empty collection by API requests. -/
inductive Reachable : List Doc → Prop where
  | init : Reachable []
  | step {db db2 : List Doc} : Reachable db → Step db db2 → Reachable db2

/-! ### Storage-layer lemmas -/

theorem delete_one_of_find_one_none (db : List Doc) (id : String)
    (h : find_one db id = none) : delete_one db id = (db, 0) := by
  induction db with
  | nil => rfl
  | cons d rest ih =>
    by_cases hd : (d._id == id) = true
    · simp [find_one, hd] at h
    · simp only [find_one, hd, if_neg, Bool.not_eq_true, ite_false] at h
      simp [delete_one, hd, ih h]

theorem update_one_of_find_one_none (db : List Doc) (id : String) (f : Doc → Doc)
    (h : find_one db id = none) : update_one db id f = (db, 0) := by
  induction db with
  | nil => rfl
  | cons d rest ih =>
    by_cases hd : (d._id == id) = true
    · simp [find_one, hd] at h
    · simp only [find_one, hd, ite_false] at h
      simp [update_one, hd, ih h]

theorem update_one_snd_of_find_one_some (db : List Doc) (id : String) (f : Doc → Doc)
    (d : Doc) (h : find_one db id = some d) : (update_one db id f).2 = 1 := by
  induction db with
  | nil => simp [find_one] at h
  | cons a rest ih =>
    by_cases ha : (a._id == id) = true
    · simp [update_one, ha]
    · simp only [find_one, ha, ite_false] at h
      simp [update_one, ha, ih h]

theorem find_one_update_one (db : List Doc) (id : String) (f : Doc → Doc)
    (hf : ∀ x, (f x)._id = x._id) (d : Doc) (h : find_one db id = some d) :
    find_one (update_one db id f).1 id = some (f d) := by
  induction db with
  | nil => simp [find_one] at h
  | cons a rest ih =>
    by_cases ha : (a._id == id) = true
    · simp only [find_one, ha, ite_true, Option.some.injEq] at h
      subst h
      simp [update_one, ha, find_one, hf]
    · simp only [find_one, ha, ite_false] at h
      simp [update_one, ha, find_one, ih h]

theorem find_one_append_fresh (db : List Doc) (doc : Doc) (id : String)
    (h : db.any (fun d => d._id == id) = false) :
    find_one (db ++ [doc]) id = if doc._id == id then some doc else none := by
  induction db with
  | nil => rfl
  | cons a rest ih =>
    simp only [List.any_cons, Bool.or_eq_false_iff] at h
    simp [find_one, h.1, ih h.2]

theorem idsOf_update_one (db : List Doc) (id : String) (f : Doc → Doc)
    (hf : ∀ x, (f x)._id = x._id) :
    idsOf (update_one db id f).1 = idsOf db := by
  induction db with
  | nil => rfl
  | cons a rest ih =>
    by_cases ha : (a._id == id) = true
    · simp [update_one, ha, idsOf, hf]
    · simp only [idsOf, List.map_cons] at ih ⊢
      simp [update_one, ha, ih]

theorem idsOf_delete_one_sublist (db : List Doc) (id : String) :
    (idsOf (delete_one db id).1).Sublist (idsOf db) := by
  induction db with
  | nil => simp [delete_one, idsOf]
  | cons a rest ih =>
    by_cases ha : (a._id == id) = true
    · simp only [delete_one, ha, ite_true]
      exact (List.sublist_cons_self _ _)
    · simp only [delete_one, ha, ite_false]
      simp only [idsOf, List.map_cons]
      exact List.Sublist.cons₂ _ ih

theorem update_one_forall₂ (db : List Doc) (id : String) (f : Doc → Doc)
    (R : Doc → Doc → Prop) (hR : ∀ x, R x x) (hRf : ∀ x, R x (f x)) :
    List.Forall₂ R db (update_one db id f).1 := by
  induction db with
  | nil => exact List.Forall₂.nil
  | cons a rest ih =>
    by_cases ha : (a._id == id) = true
    · simp only [update_one, ha, ite_true]
      refine List.Forall₂.cons (hRf a) ?_
      clear ih
      induction rest with
      | nil => exact List.Forall₂.nil
      | cons b bs ihb => exact List.Forall₂.cons (hR b) ihb
    · simp only [update_one, ha, ite_false]
      exact List.Forall₂.cons (hR a) ih

/-! ### Handler-level lemmas -/

theorem applyUpdate_id (td : TaskUpdate) (now : Nat) (x : Doc) :
    (applyUpdate td now x)._id = x._id := rfl

theorem wrap500_error_status {α : Type} (pre : String) (r : Except PyExc α)
    (s : Nat) (msg : String) (h : wrap500 pre r = .error (.http s msg)) : s = 500 := by
  cases r with
  | ok a => simp [wrap500] at h
  | error e =>
    simp only [wrap500, Except.error.injEq, PyExc.http.injEq] at h
    exact h.1.symm

theorem update_task_ok (task_id : String) (td : TaskUpdate) (now : Nat) (db : List Doc)
    (hv : isValidObjectId task_id = true) (d : Doc) (hf : find_one db task_id = some d) :
    (update_task task_id td now db).2.2 = .ok (task_helper (applyUpdate td now d)) := by
  have hm : (update_one db task_id (applyUpdate td now)).2 = 1 :=
    update_one_snd_of_find_one_some db task_id _ d hf
  have hfind : find_one (update_one db task_id (applyUpdate td now)).1 task_id
      = some (applyUpdate td now d) :=
    find_one_update_one db task_id _ (applyUpdate_id td now) d hf
  simp [update_task, update_task_body, hv, hm, hfind, reraiseHttp]

theorem update_task_invalid (task_id : String) (td : TaskUpdate) (now : Nat)
    (db : List Doc) (hv : isValidObjectId task_id = false) :
    update_task task_id td now db = (db, [], .error (.http 400 "Invalid task ID format")) := by
  simp [update_task, update_task_body, hv, reraiseHttp]

theorem update_task_notfound (task_id : String) (td : TaskUpdate) (now : Nat)
    (db : List Doc) (hv : isValidObjectId task_id = true)
    (hd : find_one db task_id = none) :
    update_task task_id td now db
      = (db, [.updateOneCall task_id], .error (.http 404 "Task not found")) := by
  have h0 : update_one db task_id (applyUpdate td now) = (db, 0) :=
    update_one_of_find_one_none db task_id _ hd
  simp [update_task, update_task_body, hv, h0, reraiseHttp]

theorem update_task_ok_inv (task_id : String) (td : TaskUpdate) (now : Nat)
    (db : List Doc) (resp : TaskResponse)
    (h : (update_task task_id td now db).2.2 = .ok resp) :
    isValidObjectId task_id = true ∧
    ∃ d, find_one db task_id = some d ∧ resp = task_helper (applyUpdate td now d) := by
  by_cases hv : isValidObjectId task_id = true
  · refine ⟨hv, ?_⟩
    cases hd : find_one db task_id with
    | none =>
      rw [update_task_notfound task_id td now db hv hd] at h
      exact absurd h (by simp)
    | some d =>
      have hok := update_task_ok task_id td now db hv d hd
      rw [hok] at h
      exact ⟨d, rfl, (Except.ok.inj h).symm⟩
  · have hv2 : isValidObjectId task_id = false := by
      simpa using hv
    rw [update_task_invalid task_id td now db hv2] at h
    exact absurd h (by simp)

theorem update_task_fst (task_id : String) (td : TaskUpdate) (now : Nat)
    (db : List Doc) (hv : isValidObjectId task_id = true) :
    (update_task task_id td now db).1
      = (update_one db task_id (applyUpdate td now)).1 := by
  show (update_task_body task_id td now db).1 = _
  unfold update_task_body
  rw [hv]
  simp only [Bool.not_true, Bool.false_eq_true, if_false]
  split
  · rfl
  · split <;> rfl

theorem create_task_fresh (td : TaskCreate) (newId : String) (now : Nat)
    (db : List Doc) (hfresh : db.any (fun d => d._id == newId) = false) :
    create_task td newId now db
      = (db ++ [⟨newId, td.text, some td.completed, some now, some now⟩],
         [.insertOneCall newId, .findOneCall newId],
         .ok (task_helper ⟨newId, td.text, some td.completed, some now, some now⟩)) := by
  have hfind := find_one_append_fresh db
    ⟨newId, td.text, some td.completed, some now, some now⟩ newId hfresh
  simp only [beq_self_eq_true, if_true] at hfind
  simp [create_task, create_task_body, hfresh, hfind, wrap500]

/-! ### Id-uniqueness invariant -/

theorem idsOf_append (db : List Doc) (d : Doc) :
    idsOf (db ++ [d]) = idsOf db ++ [d._id] := by
  simp [idsOf]

theorem fresh_not_mem (db : List Doc) (id : String)
    (h : db.any (fun d => d._id == id) = false) : id ∉ idsOf db := by
  intro hmem
  simp only [idsOf, List.mem_map] at hmem
  obtain ⟨d, hd, hid⟩ := hmem
  rw [List.any_eq_false] at h
  exact h d hd (by simp [hid])

theorem create_task_fst_dup (td : TaskCreate) (newId : String) (now : Nat)
    (db : List Doc) (h : db.any (fun d => d._id == newId) = true) :
    (create_task td newId now db).1 = db := by
  simp [create_task, create_task_body, h]

theorem delete_task_invalid (task_id : String) (db : List Doc)
    (hv : isValidObjectId task_id = false) :
    delete_task task_id db = (db, [], .error (.http 400 "Invalid task ID format")) := by
  simp [delete_task, delete_task_body, hv, reraiseHttp]

theorem delete_task_fst (task_id : String) (db : List Doc)
    (hv : isValidObjectId task_id = true) :
    (delete_task task_id db).1 = (delete_one db task_id).1 := by
  show (delete_task_body task_id db).1 = _
  unfold delete_task_body
  rw [hv]
  simp only [Bool.not_true, Bool.false_eq_true, if_false]
  split <;> rfl

theorem nodup_create (td : TaskCreate) (newId : String) (now : Nat) (db : List Doc)
    (hn : (idsOf db).Nodup) : (idsOf (create_task td newId now db).1).Nodup := by
  cases hfr : db.any (fun d => d._id == newId) with
  | true => rw [create_task_fst_dup td newId now db hfr]; exact hn
  | false =>
    have hmem := fresh_not_mem db newId hfr
    have hfst : (create_task td newId now db).1
        = db ++ [⟨newId, td.text, some td.completed, some now, some now⟩] := by
      rw [create_task_fresh td newId now db hfr]
    rw [hfst, idsOf_append]
    simp [List.nodup_append, hn, List.disjoint_singleton, hmem]

theorem nodup_delete (task_id : String) (db : List Doc)
    (hn : (idsOf db).Nodup) : (idsOf (delete_task task_id db).1).Nodup := by
  cases hv : isValidObjectId task_id with
  | false => rw [show (delete_task task_id db).1 = db from by
      rw [delete_task_invalid task_id db hv]]; exact hn
  | true =>
    rw [delete_task_fst task_id db hv]
    exact (idsOf_delete_one_sublist db task_id).nodup hn

theorem nodup_update (task_id : String) (td : TaskUpdate) (now : Nat) (db : List Doc)
    (hn : (idsOf db).Nodup) : (idsOf (update_task task_id td now db).1).Nodup := by
  cases hv : isValidObjectId task_id with
  | false => rw [show (update_task task_id td now db).1 = db from by
      rw [update_task_invalid task_id td now db hv]]; exact hn
  | true =>
    rw [update_task_fst task_id td now db hv,
      idsOf_update_one db task_id _ (applyUpdate_id td now)]
    exact hn

theorem update_task_ids (task_id : String) (td : TaskUpdate) (now : Nat)
    (db : List Doc) : idsOf (update_task task_id td now db).1 = idsOf db := by
  cases hv : isValidObjectId task_id with
  | false => rw [show (update_task task_id td now db).1 = db from by
      rw [update_task_invalid task_id td now db hv]]
  | true =>
    rw [update_task_fst task_id td now db hv,
      idsOf_update_one db task_id _ (applyUpdate_id td now)]

theorem create_task_ids (td : TaskCreate) (newId : String) (now : Nat)
    (db : List Doc) :
    idsOf (create_task td newId now db).1 = idsOf db ∨
    idsOf (create_task td newId now db).1 = idsOf db ++ [newId] := by
  cases hfr : db.any (fun d => d._id == newId) with
  | true => exact Or.inl (by rw [create_task_fst_dup td newId now db hfr])
  | false =>
    refine Or.inr ?_
    have hfst : (create_task td newId now db).1
        = db ++ [⟨newId, td.text, some td.completed, some now, some now⟩] := by
      rw [create_task_fresh td newId now db hfr]
    rw [hfst, idsOf_append]

theorem reachable_nodup {db : List Doc} (h : Reachable db) : (idsOf db).Nodup := by
  induction h with
  | init => simp [idsOf]
  | step _ hs ih =>
    cases hs with
    | createS td newId now db => exact nodup_create _ _ _ _ ih
    | deleteS task_id db => exact nodup_delete _ _ ih
    | deleteAllS db => simp [delete_all_tasks, delete_all_tasks_body, idsOf]
    | updateS task_id td now db => exact nodup_update _ _ _ _ ih
    | getAllS db => exact ih

/-! ### Claims -/

/-- C1: for every existing task and every update request, only the fields
explicitly present in the payload are modified: a payload whose `text` is
absent leaves the stored `text` (and the response `text`) unchanged, a
payload whose `completed` is absent leaves `completed` unchanged, and `_id`
and `created_at` are never touched. -/
theorem C1_partial_update_frame (task_id : String) (td : TaskUpdate) (now : Nat)
    (db : List Doc) (d : Doc) (hv : isValidObjectId task_id = true)
    (hf : find_one db task_id = some d) :
    ∃ d2, find_one (update_task task_id td now db).1 task_id = some d2 ∧
      d2._id = d._id ∧ d2.created_at = d.created_at ∧
      (td.text = none → d2.text = d.text) ∧
      (td.completed = none → d2.completed = d.completed) ∧
      ∃ resp, (update_task task_id td now db).2.2 = Except.ok resp ∧
        (td.text = none → resp.text = d.text) ∧
        (td.completed = none → resp.completed = d.completed.getD false) := by
  refine ⟨applyUpdate td now d, ?_, rfl, rfl, ?_, ?_,
    task_helper (applyUpdate td now d), update_task_ok task_id td now db hv d hf, ?_, ?_⟩
  · rw [update_task_fst task_id td now db hv]
    exact find_one_update_one db task_id _ (applyUpdate_id td now) d hf
  · intro h; simp [applyUpdate, h]
  · intro h; simp [applyUpdate, h]
  · intro h; simp [task_helper, applyUpdate, h]
  · intro h; simp [task_helper, applyUpdate, h]

/-- C1 witness: an update whose payload carries neither field leaves both
`text` and `completed` of a concrete stored task unchanged. -/
theorem C1_witness :
    ∃ d2, find_one (update_task "aaaaaaaaaaaaaaaaaaaaaaaa" {} 5
        [⟨"aaaaaaaaaaaaaaaaaaaaaaaa", "buy milk", some false, some 1, some 1⟩]).1
        "aaaaaaaaaaaaaaaaaaaaaaaa" = some d2 ∧
      d2._id = "aaaaaaaaaaaaaaaaaaaaaaaa" ∧ d2.created_at = some 1 ∧
      (({} : TaskUpdate).text = none → d2.text = "buy milk") ∧
      (({} : TaskUpdate).completed = none → d2.completed = some false) ∧
      ∃ resp, (update_task "aaaaaaaaaaaaaaaaaaaaaaaa" {} 5
          [⟨"aaaaaaaaaaaaaaaaaaaaaaaa", "buy milk", some false, some 1, some 1⟩]).2.2
          = Except.ok resp ∧
        (({} : TaskUpdate).text = none → resp.text = "buy milk") ∧
        (({} : TaskUpdate).completed = none → resp.completed = false) :=
  C1_partial_update_frame "aaaaaaaaaaaaaaaaaaaaaaaa" {} 5
    [⟨"aaaaaaaaaaaaaaaaaaaaaaaa", "buy milk", some false, some 1, some 1⟩]
    ⟨"aaaaaaaaaaaaaaaaaaaaaaaa", "buy milk", some false, some 1, some 1⟩
    (by decide) rfl

/-- C2: every successful update answers with `updated_at` refreshed to the
current time, whatever the payload contained. -/
theorem C2_updated_at_refreshed (task_id : String) (td : TaskUpdate) (now : Nat)
    (db : List Doc) (resp : TaskResponse)
    (h : (update_task task_id td now db).2.2 = Except.ok resp) :
    resp.updated_at = some now := by
  obtain ⟨-, d, -, rfl⟩ := update_task_ok_inv task_id td now db resp h
  rfl

/-- C2 witness: updating a concrete task at time 5 answers `updated_at = 5`. -/
theorem C2_witness :
    ({ id := "aaaaaaaaaaaaaaaaaaaaaaaa", text := "buy milk", completed := false,
       created_at := some 1, updated_at := some 5 } : TaskResponse).updated_at
      = some 5 :=
  C2_updated_at_refreshed "aaaaaaaaaaaaaaaaaaaaaaaa" {} 5
    [⟨"aaaaaaaaaaaaaaaaaaaaaaaa", "buy milk", some false, some 1, some 1⟩] _ rfl

/-- C3: a malformed id on delete or update yields exactly a 400 client error
(so never 404 or 500), leaves the collection unchanged, and performs no
storage call. -/
theorem C3_malformed_id_client_error (task_id : String) (db : List Doc)
    (td : TaskUpdate) (now : Nat) (h : isValidObjectId task_id = false) :
    delete_task task_id db
      = (db, [], Except.error (.http 400 "Invalid task ID format")) ∧
    update_task task_id td now db
      = (db, [], Except.error (.http 400 "Invalid task ID format")) :=
  ⟨delete_task_invalid task_id db h, update_task_invalid task_id td now db h⟩

/-- C3 witness: the string "not-an-id" is rejected with 400 by both
operations, with no storage call. -/
theorem C3_witness :
    delete_task "not-an-id" []
      = ([], [], Except.error (.http 400 "Invalid task ID format")) ∧
    update_task "not-an-id" {} 0 []
      = ([], [], Except.error (.http 400 "Invalid task ID format")) :=
  C3_malformed_id_client_error "not-an-id" [] {} 0 (by decide)

/-- C4: deleting a well-formed id that is absent from the collection yields
404 and leaves the collection (in particular its size) unchanged. -/
theorem C4_delete_missing_404 (task_id : String) (db : List Doc)
    (hv : isValidObjectId task_id = true) (habs : find_one db task_id = none) :
    (delete_task task_id db).1 = db ∧
    (delete_task task_id db).2.2 = Except.error (.http 404 "Task not found") ∧
    (delete_task task_id db).1.length = db.length := by
  have h0 : delete_one db task_id = (db, 0) :=
    delete_one_of_find_one_none db task_id habs
  have hall : delete_task task_id db
      = (db, [.deleteOneCall task_id], Except.error (.http 404 "Task not found")) := by
    simp [delete_task, delete_task_body, hv, h0, reraiseHttp]
  rw [hall]
  exact ⟨rfl, rfl, rfl⟩

/-- C4 witness: deleting a valid id from the empty collection answers 404
and keeps the collection empty. -/
theorem C4_witness :
    (delete_task "aaaaaaaaaaaaaaaaaaaaaaaa" []).1 = [] ∧
    (delete_task "aaaaaaaaaaaaaaaaaaaaaaaa" []).2.2
      = Except.error (.http 404 "Task not found") ∧
    (delete_task "aaaaaaaaaaaaaaaaaaaaaaaa" []).1.length = List.length ([] : List Doc) :=
  C4_delete_missing_404 "aaaaaaaaaaaaaaaaaaaaaaaa" [] (by decide) rfl

/-- C5: a 400 or 404 raised inside the body of delete or update propagates
through the operation's handlers unchanged (never downgraded to 500), and
the create operation's errors all carry status 500 — its body never raises
a 400 or 404 that could be downgraded. -/
theorem C5_no_downgrade :
    (∀ (task_id : String) (db : List Doc) (s : Nat) (msg : String),
        (delete_task_body task_id db).2.2 = Except.error (.http s msg) →
        (s = 400 ∨ s = 404) →
        (delete_task task_id db).2.2 = Except.error (.http s msg)) ∧
    (∀ (task_id : String) (td : TaskUpdate) (now : Nat) (db : List Doc)
        (s : Nat) (msg : String),
        (update_task_body task_id td now db).2.2 = Except.error (.http s msg) →
        (s = 400 ∨ s = 404) →
        (update_task task_id td now db).2.2 = Except.error (.http s msg)) ∧
    (∀ (td : TaskCreate) (newId : String) (now : Nat) (db : List Doc)
        (s : Nat) (msg : String),
        (create_task td newId now db).2.2 = Except.error (.http s msg) → s = 500) := by
  refine ⟨?_, ?_, ?_⟩
  · intro task_id db s msg h _
    show reraiseHttp "Error deleting task: " (delete_task_body task_id db).2.2 = _
    rw [h]
    rfl
  · intro task_id td now db s msg h _
    show reraiseHttp "Error updating task: " (update_task_body task_id td now db).2.2 = _
    rw [h]
    rfl
  · intro td newId now db s msg h
    exact wrap500_error_status "Error creating task: "
      (create_task_body td newId now db).2.2 s msg h

/-- C5 witness: the 400 of a malformed delete id and the 400 of a malformed
update id reach the client unchanged, and a create error (duplicate id)
carries status 500. -/
theorem C5_witness :
    (delete_task "bad" []).2.2 = Except.error (.http 400 "Invalid task ID format") ∧
    (update_task "bad" {} 0 []).2.2 = Except.error (.http 400 "Invalid task ID format") ∧
    (500 : Nat) = 500 :=
  ⟨C5_no_downgrade.1 "bad" [] 400 "Invalid task ID format" rfl (Or.inl rfl),
   C5_no_downgrade.2.1 "bad" {} 0 [] 400 "Invalid task ID format" rfl (Or.inl rfl),
   C5_no_downgrade.2.2 { text := "x" } "aaaaaaaaaaaaaaaaaaaaaaaa" 0
     [⟨"aaaaaaaaaaaaaaaaaaaaaaaa", "y", some false, some 0, some 0⟩] 500
     "Error creating task: E11000 duplicate key error" rfl⟩

/-- C6: creating a task (payload omitting `completed`, so the model defaults
it to false) and then listing includes the created task exactly once, with
the submitted `text` and `completed = false`. -/
theorem C6_create_then_list (db : List Doc) (t newId : String) (now : Nat)
    (hfresh : db.any (fun d => d._id == newId) = false) :
    ({ text := t } : TaskCreate).completed = false ∧
    ∃ resp, (create_task { text := t } newId now db).2.2 = Except.ok resp ∧
      resp.text = t ∧ resp.completed = false ∧ resp.id = newId ∧
      ∃ l, (get_all_tasks (create_task { text := t } newId now db).1).2.2
          = Except.ok l ∧
        l.count resp = 1 := by
  have hc := create_task_fresh { text := t } newId now db hfresh
  have hfst : (create_task { text := t } newId now db).1
      = db ++ [⟨newId, t, some false, some now, some now⟩] := by rw [hc]
  have hok : (create_task { text := t } newId now db).2.2
      = Except.ok (task_helper ⟨newId, t, some false, some now, some now⟩) := by rw [hc]
  refine ⟨rfl, task_helper ⟨newId, t, some false, some now, some now⟩, hok,
    rfl, rfl, rfl, ?_⟩
  set db1 : List Doc := db ++ [⟨newId, t, some false, some now, some now⟩] with hdb1
  refine ⟨(sortByCreatedDesc db1).map task_helper, by rw [hfst]; rfl, ?_⟩
  have hperm : ((sortByCreatedDesc db1).map task_helper).Perm (db1.map task_helper) :=
    (List.perm_insertionSort _ db1).map task_helper
  rw [hperm.count_eq]
  have hzero : (db.map task_helper).count
      (task_helper ⟨newId, t, some false, some now, some now⟩) = 0 := by
    rw [List.count_eq_zero]
    intro hmem
    simp only [List.mem_map] at hmem
    obtain ⟨d, hd, hdr⟩ := hmem
    have hid : d._id = newId := congrArg TaskResponse.id hdr
    exact fresh_not_mem db newId hfresh
      (hid ▸ List.mem_map_of_mem (fun x => x._id) hd)
  rw [hdb1, List.map_append, List.count_append, hzero]
  simp

/-- C6 witness: creating "buy milk" in the empty collection and listing
shows it exactly once, with `completed = false`. -/
theorem C6_witness :
    ({ text := "buy milk" } : TaskCreate).completed = false ∧
    ∃ resp, (create_task { text := "buy milk" } "aaaaaaaaaaaaaaaaaaaaaaaa" 0 []).2.2
        = Except.ok resp ∧
      resp.text = "buy milk" ∧ resp.completed = false ∧
      resp.id = "aaaaaaaaaaaaaaaaaaaaaaaa" ∧
      ∃ l, (get_all_tasks
          (create_task { text := "buy milk" } "aaaaaaaaaaaaaaaaaaaaaaaa" 0 []).1).2.2
          = Except.ok l ∧
        l.count resp = 1 :=
  C6_create_then_list [] "buy milk" "aaaaaaaaaaaaaaaaaaaaaaaa" 0 rfl

/-- C7: deleting all tasks empties the collection, a subsequent list answers
the empty sequence, and the confirmation carries both the deleted count and
the count held immediately before deletion. -/
theorem C7_delete_all_empties (db : List Doc) :
    delete_all_tasks db
      = ([], [StorageCall.countCall, StorageCall.deleteManyCall],
         Except.ok ⟨"All tasks deleted successfully", db.length, db.length⟩) ∧
    (get_all_tasks (delete_all_tasks db).1).2.2
      = Except.ok ([] : List TaskResponse) :=
  ⟨rfl, rfl⟩

/-- C8: in every collection state reachable from an empty store through the
API's operations, document ids are pairwise distinct; update never changes
any stored id, and create leaves all existing ids in place (appending at
most the fresh one). -/
theorem C8_id_invariants {db : List Doc} (h : Reachable db) :
    (idsOf db).Nodup ∧
    (∀ (task_id : String) (td : TaskUpdate) (now : Nat),
        idsOf (update_task task_id td now db).1 = idsOf db) ∧
    (∀ (td : TaskCreate) (newId : String) (now : Nat),
        idsOf (create_task td newId now db).1 = idsOf db ∨
        idsOf (create_task td newId now db).1 = idsOf db ++ [newId]) :=
  ⟨reachable_nodup h,
   fun task_id td now => update_task_ids task_id td now db,
   fun td newId now => create_task_ids td newId now db⟩

/-- C8 witness: the state reached by one create from the empty store has
distinct ids, and a concrete update on it changes no id. -/
theorem C8_witness :
    (idsOf (create_task { text := "buy milk" } "aaaaaaaaaaaaaaaaaaaaaaaa" 0 []).1).Nodup ∧
    idsOf (update_task "bbbbbbbbbbbbbbbbbbbbbbbb" {} 7
        (create_task { text := "buy milk" } "aaaaaaaaaaaaaaaaaaaaaaaa" 0 []).1).1
      = idsOf (create_task { text := "buy milk" } "aaaaaaaaaaaaaaaaaaaaaaaa" 0 []).1 := by
  have h : Reachable (create_task { text := "buy milk" } "aaaaaaaaaaaaaaaaaaaaaaaa" 0 []).1 :=
    Reachable.step Reachable.init
      (Step.createS { text := "buy milk" } "aaaaaaaaaaaaaaaaaaaaaaaa" 0 [])
  exact ⟨(C8_id_invariants h).1, (C8_id_invariants h).2.1 "bbbbbbbbbbbbbbbbbbbbbbbb" {} 7⟩

/-- C9 counterexample: a create request whose body lacks the required `text`
field is answered with status 422 (the framework's validation status), not
the 400 the claim states. -/
theorem C9_counterexample :
    (create_task_endpoint {} "aaaaaaaaaaaaaaaaaaaaaaaa" 0 []).2.2
      = Except.error (.http 422 "Field required") ∧ (422 : Nat) ≠ 400 :=
  ⟨rfl, by decide⟩

/-- C9 (amended): for every malformed create request body (e.g. missing
`text` or a non-string `text`), the create operation returns a 422
unprocessable-entity client error, and the route's own code performs no
storage call. -/
theorem C9_malformed_body_422 (body : RawCreateBody) (newId : String) (now : Nat)
    (db : List Doc) (msg : String) (h : parseTaskCreate body = Except.error msg) :
    create_task_endpoint body newId now db
      = (db, [], Except.error (.http 422 msg)) := by
  unfold create_task_endpoint
  rw [h]

/-- C9 witness: the body `{}` (no `text`) is rejected with 422. -/
theorem C9_witness :
    create_task_endpoint {} "aaaaaaaaaaaaaaaaaaaaaaaa" 0 []
      = ([], [], Except.error (.http 422 "Field required")) :=
  C9_malformed_body_422 {} "aaaaaaaaaaaaaaaaaaaaaaaa" 0 [] "Field required" rfl

/-- C10: an update request carrying no fields (whether both are absent or
both are explicit nulls, which pydantic parses identically) is accepted on
an existing task; it changes nothing in any stored document except the
matched task's `updated_at`, and answers the task with `updated_at`
refreshed. -/
theorem C10_empty_update_noop (task_id : String) (now : Nat) (db : List Doc)
    (d : Doc) (hv : isValidObjectId task_id = true)
    (hf : find_one db task_id = some d) :
    parseTaskUpdate {} = Except.ok ({} : TaskUpdate) ∧
    parseTaskUpdate { text := some Json.null, completed := some Json.null }
      = Except.ok ({} : TaskUpdate) ∧
    (update_task task_id {} now db).2.2
      = Except.ok (task_helper { d with updated_at := some now }) ∧
    List.Forall₂ (fun old new => new._id = old._id ∧ new.text = old.text ∧
        new.completed = old.completed ∧ new.created_at = old.created_at)
      db (update_task task_id {} now db).1 := by
  refine ⟨rfl, rfl, ?_, ?_⟩
  · exact update_task_ok task_id {} now db hv d hf
  · rw [update_task_fst task_id {} now db hv]
    exact update_one_forall₂ db task_id _ _
      (fun x => ⟨rfl, rfl, rfl, rfl⟩) (fun x => ⟨rfl, rfl, rfl, rfl⟩)

/-- C10 witness: the empty update on a concrete stored task only refreshes
`updated_at`. -/
theorem C10_witness :
    parseTaskUpdate {} = Except.ok ({} : TaskUpdate) ∧
    parseTaskUpdate { text := some Json.null, completed := some Json.null }
      = Except.ok ({} : TaskUpdate) ∧
    (update_task "aaaaaaaaaaaaaaaaaaaaaaaa" {} 9
        [⟨"aaaaaaaaaaaaaaaaaaaaaaaa", "buy milk", some false, some 1, some 1⟩]).2.2
      = Except.ok (task_helper
          { (⟨"aaaaaaaaaaaaaaaaaaaaaaaa", "buy milk", some false, some 1, some 1⟩ : Doc)
            with updated_at := some 9 }) ∧
    List.Forall₂ (fun (old new : Doc) => new._id = old._id ∧ new.text = old.text ∧
        new.completed = old.completed ∧ new.created_at = old.created_at)
      [⟨"aaaaaaaaaaaaaaaaaaaaaaaa", "buy milk", some false, some 1, some 1⟩]
      (update_task "aaaaaaaaaaaaaaaaaaaaaaaa" {} 9
        [⟨"aaaaaaaaaaaaaaaaaaaaaaaa", "buy milk", some false, some 1, some 1⟩]).1 :=
  C10_empty_update_noop "aaaaaaaaaaaaaaaaaaaaaaaa" 9
    [⟨"aaaaaaaaaaaaaaaaaaaaaaaa", "buy milk", some false, some 1, some 1⟩]
    ⟨"aaaaaaaaaaaaaaaaaaaaaaaa", "buy milk", some false, some 1, some 1⟩
    (by decide) rfl

end TodoApp
